import Mathlib

/-!
Verification development for the cifr-ai voice-assistant backend.

The embedding follows the Python source:
  * `backend/services/spotify_service.py` (class `SpotifyService`),
  * `backend/services/llm_service.py` (class `LLMService`),
  * `backend/main.py` (`execute_tool_call`, `process_command`, `websocket_endpoint`).

Python dictionaries holding tool-call arguments are modelled as association
lists of string keys to string values (the dispatcher only ever reads
string-valued keys and compares them with string literals).  Stateful code is
embedded by explicit state passing: the mutable fields of the Spotify service
singleton (`self.sp`, `self.device_id`) form `SpotifyState`, and every outbound
network call of the service is a field of `SpotifyEnv`, returning
`Except SpotifyExc` to model the raising behaviour of the Python client.
-/

/-- Single-quote character, used by messages that quote the search query. -/
def apos : String := "\x27"

/-- Tool-call arguments dictionary (`Dict[str, Any]` restricted to the
string-valued keys the dispatcher reads). -/
abbrev Args := List (String × String)

/-- Python `d.get(k)`: the first binding of `k`, if any. -/
def dictGet? (d : Args) (k : String) : Option String :=
  match d.find? (fun kv => kv.1 == k) with
  | some kv => some kv.2
  | none => none

/-- Python `d.get(k, dflt)`. -/
def dictGetD (d : Args) (k : String) (dflt : String) : String :=
  (dictGet? d k).getD dflt

/-- Python truthiness of an optional string: `None` and `""` are falsy. -/
def pyTruthyStr : Option String → Bool
  | none => false
  | some s => !(s == "")

/-- Result dictionary returned by every dispatched action
(`{status, message, ...extra fields}`); absent keys are `none`. -/
structure ActionResult where
  status : String
  message : Option String := none
  track : Option String := none
  artist : Option String := none
  album : Option String := none
  playlist : Option String := none
  isPlaying : Option Bool := none
  progress : Option Nat := none
  duration : Option Nat := none
deriving DecidableEq

/-- Exceptions raised by the spotipy client: `SpotifyException` (with an HTTP
status) or any other `Exception`, both carrying their `str(e)` description. -/
inductive SpotifyExc where
  | api (httpStatus : Nat) (msg : String)
  | other (msg : String)
deriving DecidableEq

/-- Python `str(e)` of a raised exception. -/
def SpotifyExc.str : SpotifyExc → String
  | .api _ m => m
  | .other m => m

/-- A track item from a search result or a top-tracks listing. -/
structure Track where
  name : String
  artistNames : List String
  uri : String
deriving DecidableEq

/-- An artist item from a search result. -/
structure ArtistItem where
  name : String
  id : String
deriving DecidableEq

/-- A playlist item from a search result. -/
structure PlaylistItem where
  name : String
  uri : String
deriving DecidableEq

/-- An album item from a search result. -/
structure AlbumItem where
  name : String
  artistNames : List String
  uri : String
deriving DecidableEq

/-- The item lists of a spotipy search response, one per content type
(lists not relevant to the requested type are empty in practice). -/
structure SearchResults where
  tracks : List Track
  artists : List ArtistItem
  playlists : List PlaylistItem
  albums : List AlbumItem
deriving DecidableEq

/-- A playback device as returned by `sp.devices()`. -/
structure Device where
  id : String
  isActive : Bool
  name : String
deriving DecidableEq

/-- The `item` of a current-playback response. -/
structure PlaybackTrack where
  name : String
  artistNames : List String
  albumName : String
  durationMs : Nat
deriving DecidableEq

/-- A current-playback response (`sp.current_playback()` may also return
`None`, modelled by `Option PlaybackState`). -/
structure PlaybackState where
  item : Option PlaybackTrack
  isPlaying : Bool
  progressMs : Nat
deriving DecidableEq

/-- Mutable fields of the `SpotifyService` singleton: `sp` records whether the
client handle is set (`self.sp is not None`), `deviceId` is `self.device_id`. -/
structure SpotifyState where
  sp : Bool
  deviceId : Option String
deriving DecidableEq

/-- Behaviour of the external Spotify Web API, one field per spotipy call the
service makes; `Except` models the call raising an exception. -/
structure SpotifyEnv where
  devices : Except SpotifyExc (List Device)
  search : String → String → Except SpotifyExc SearchResults
  artistTopTracks : String → Except SpotifyExc (List Track)
  startPlaybackUris : Option String → List String → Except SpotifyExc Unit
  startPlaybackContext : Option String → String → Except SpotifyExc Unit
  startPlaybackResume : Option String → Except SpotifyExc Unit
  pausePlayback : Option String → Except SpotifyExc Unit
  nextTrack : Option String → Except SpotifyExc Unit
  previousTrack : Option String → Except SpotifyExc Unit
  currentPlayback : Except SpotifyExc (Option PlaybackState)

/-- The result every service method returns when `self.sp` is `None`. -/
def notInitResult : ActionResult :=
  { status := "error", message := some "Spotify not initialized. Please run auth_spotify_fixed.py" }

/-- Python `xs[0]` on a list of names: raises `IndexError` when empty. -/
def headOrThrow (xs : List String) : Except SpotifyExc String :=
  match xs with
  | x :: _ => .ok x
  | [] => .error (.other "list index out of range")

/-- `SpotifyService._get_device`: refresh `self.device_id` from the device
list, preferring an active device, else the first; on an exception the cached
id is left unchanged. -/
def SpotifyService.get_device (env : SpotifyEnv) (st : SpotifyState) : SpotifyState :=
  match env.devices with
  | .error _ => st
  | .ok devs =>
      match devs with
      | [] => { st with deviceId := none }
      | d0 :: _ =>
          match devs.find? (fun d => d.isActive) with
          | some d => { st with deviceId := some d.id }
          | none => { st with deviceId := some d0.id }

/-- The `type_mapping` dictionary of `search_and_play`. -/
def type_mapping : Args :=
  [("track", "track"), ("artist", "artist"), ("playlist", "playlist"), ("album", "album")]

/-- `type_mapping.get(search_type, "track")`. -/
def spotifyTypeOf (searchType : String) : String :=
  dictGetD type_mapping searchType "track"

/-- The `except` clauses of `search_and_play`. -/
def searchPlayExcResult : SpotifyExc → ActionResult
  | .api 404 _ =>
      { status := "error",
        message := some "Device not found. Please open Spotify and start playing something first." }
  | .api 403 _ =>
      { status := "error",
        message := some "Premium account required for playback control." }
  | .api s m => { status := "error", message := some ("Spotify error: " ++ SpotifyExc.str (.api s m)) }
  | .other m => { status := "error", message := some m }

/-- Body of the `if spotify_type == ... and results[...]['items']` chain of
`search_and_play`: `some r` when a branch returns, `none` when every branch
falls through to the final no-match return. -/
def searchBranches (env : SpotifyEnv) (deviceId : Option String)
    (spotifyType : String) (results : SearchResults) :
    Except SpotifyExc (Option ActionResult) :=
  if spotifyType == "track" then
    match results.tracks with
    | [] => .ok none
    | track :: _ =>
        match env.startPlaybackUris deviceId [track.uri] with
        | .error e => .error e
        | .ok _ =>
            match headOrThrow track.artistNames with
            | .error e => .error e
            | .ok artist =>
                .ok (some
                  { status := "success",
                    message := some ("Playing: " ++ track.name ++ " by " ++ artist),
                    track := some track.name, artist := some artist })
  else if spotifyType == "artist" then
    match results.artists with
    | [] => .ok none
    | artist :: _ =>
        match env.artistTopTracks artist.id with
        | .error e => .error e
        | .ok topTracks =>
            match topTracks with
            | [] => .ok none
            | _ :: _ =>
                match env.startPlaybackUris deviceId ((topTracks.take 10).map (fun t => t.uri)) with
                | .error e => .error e
                | .ok _ =>
                    .ok (some
                      { status := "success",
                        message := some ("Playing top tracks by " ++ artist.name),
                        artist := some artist.name })
  else if spotifyType == "playlist" then
    match results.playlists with
    | [] => .ok none
    | playlist :: _ =>
        match env.startPlaybackContext deviceId playlist.uri with
        | .error e => .error e
        | .ok _ =>
            .ok (some
              { status := "success",
                message := some ("Playing playlist: " ++ playlist.name),
                playlist := some playlist.name })
  else if spotifyType == "album" then
    match results.albums with
    | [] => .ok none
    | album :: _ =>
        match env.startPlaybackContext deviceId album.uri with
        | .error e => .error e
        | .ok _ =>
            match headOrThrow album.artistNames with
            | .error e => .error e
            | .ok artist =>
                .ok (some
                  { status := "success",
                    message := some ("Playing album: " ++ album.name ++ " by " ++ artist),
                    album := some album.name, artist := some artist })
  else .ok none

/-- `SpotifyService.search_and_play(query, search_type)`: returns the action
result together with the service state after the call (the device cache may
have been refreshed). -/
def SpotifyService.search_and_play (env : SpotifyEnv) (st : SpotifyState)
    (query : String) (searchType : String) : ActionResult × SpotifyState :=
  if !st.sp then (notInitResult, st)
  else
    let st1 := if pyTruthyStr st.deviceId then st else SpotifyService.get_device env st
    if !(pyTruthyStr st1.deviceId) then
      ({ status := "error", message := some "No Spotify device available. Please open Spotify." }, st1)
    else
      let spotifyType := spotifyTypeOf searchType
      match env.search query spotifyType with
      | .error e => (searchPlayExcResult e, st1)
      | .ok results =>
          match searchBranches env st1.deviceId spotifyType results with
          | .error e => (searchPlayExcResult e, st1)
          | .ok (some r) => (r, st1)
          | .ok none =>
              ({ status := "error",
                 message := some ("No " ++ searchType ++ " found for " ++ apos ++ query ++ apos) }, st1)

/-- `SpotifyService.control_playback(action)`. -/
def SpotifyService.control_playback (env : SpotifyEnv) (st : SpotifyState)
    (action : String) : ActionResult :=
  if !st.sp then notInitResult
  else
    let body : Except SpotifyExc ActionResult :=
      if action == "play" then
        match env.startPlaybackResume st.deviceId with
        | .error e => .error e
        | .ok _ => .ok { status := "success", message := some "Playback resumed" }
      else if action == "pause" then
        match env.pausePlayback st.deviceId with
        | .error e => .error e
        | .ok _ => .ok { status := "success", message := some "Playback paused" }
      else if action == "skip" || action == "next" then
        match env.nextTrack st.deviceId with
        | .error e => .error e
        | .ok _ => .ok { status := "success", message := some "Skipped to next track" }
      else if action == "previous" then
        match env.previousTrack st.deviceId with
        | .error e => .error e
        | .ok _ => .ok { status := "success", message := some "Playing previous track" }
      else .ok { status := "error", message := some ("Unknown action: " ++ action) }
    match body with
    | .ok r => r
    | .error (.api 404 _) =>
        { status := "error", message := some "No active device found. Please open Spotify." }
    | .error (.api 403 _) =>
        { status := "error", message := some "Premium account required for playback control." }
    | .error (.api s m) =>
        { status := "error", message := some ("Spotify error: " ++ SpotifyExc.str (.api s m)) }
    | .error (.other m) => { status := "error", message := some m }

/-- `SpotifyService.get_current_track()`. -/
def SpotifyService.get_current_track (env : SpotifyEnv) (st : SpotifyState) : ActionResult :=
  if !st.sp then notInitResult
  else
    let body : Except SpotifyExc ActionResult :=
      match env.currentPlayback with
      | .error e => .error e
      | .ok current =>
          match current with
          | some c =>
              match c.item with
              | some track =>
                  match headOrThrow track.artistNames with
                  | .error e => .error e
                  | .ok artist =>
                      .ok
                        { status := "success", isPlaying := some c.isPlaying,
                          track := some track.name, artist := some artist,
                          album := some track.albumName,
                          progress := some c.progressMs, duration := some track.durationMs }
              | none => .ok { status := "success", message := some "No track currently playing" }
          | none => .ok { status := "success", message := some "No track currently playing" }
    match body with
    | .ok r => r
    | .error e => { status := "error", message := some e.str }

/-- One entry of the chat message list sent to the language model
(a `{role, content}` pair). -/
structure ChatMessage where
  role : String
  content : String
deriving DecidableEq

/-- One tool invocation of a model response: the function name and the
JSON-encoded argument string (`tool_call.function.arguments`). -/
structure RawToolCall where
  name : String
  argumentsStr : String
deriving DecidableEq

/-- The message of a chat-completion response: its tool invocations (empty
list models both `None` and `[]`) and its text content. -/
structure GroqMessage where
  toolCalls : List RawToolCall
  content : Option String
deriving DecidableEq

/-- The fixed system instruction of `LLMService.process_command`. -/
def systemPrompt : String :=
  "You are a helpful voice assistant with access to Spotify and Calendar.\n                Be concise in responses since this is voice interaction.\n                Current date/time context will be provided when needed.\n                Always use the appropriate tool for user requests."

/-- The message list `LLMService.process_command` sends: the system
instruction, then the caller-supplied context if truthy, then the user text. -/
def buildMessages (userInput : String) (context : Option (List ChatMessage)) :
    List ChatMessage :=
  ({ role := "system", content := systemPrompt } : ChatMessage) ::
    ((match context with
      | some ctx => ctx
      | none => []) ++ [{ role := "user", content := userInput }])

/-- The result dictionary of `LLMService.process_command`
(`raw_response` is the extra key of the tool-call dictionary; it is dropped
when the single-shot endpoint builds a `CommandResponse`). -/
structure CommandResult where
  type : String
  tool : Option String := none
  arguments : Option Args := none
  content : Option String := none
  error : Option String := none
  rawResponse : Option String := none
  executionResult : Option ActionResult := none
deriving DecidableEq

/-- `LLMService.process_command(user_input, context)`.  The model transport is
the `oracle` function from the sent message list to either an exception
description or a response message; `parseJson` is `json.loads` on the honored
invocation's argument string.  The single `try` of the source wraps both the
model call and the JSON parse, so either failure reaches the one `except`
clause, which returns the error dictionary; the oracle is consulted exactly
once per call (no retry). -/
def LLMService.process_command
    (oracle : List ChatMessage → Except String GroqMessage)
    (parseJson : String → Except String Args)
    (userInput : String) (context : Option (List ChatMessage)) : CommandResult :=
  let messages := buildMessages userInput context
  match oracle messages with
  | .error e => { type := "error", error := some e }
  | .ok message =>
      match message.toolCalls with
      | toolCall :: _ =>
          match parseJson toolCall.argumentsStr with
          | .error e => { type := "error", error := some e }
          | .ok functionArgs =>
              { type := "tool_call", tool := some toolCall.name,
                arguments := some functionArgs, rawResponse := message.content }
      | [] => { type := "direct_response", content := message.content }

/-- `execute_tool_call(tool_name, arguments)` of `backend/main.py`, with the
Spotify singleton's state passed explicitly and returned alongside the result.
An unrecognized `control_spotify` action leaves the inner `if` chain without
returning, so control reaches the function-level unknown-tool return. -/
def execute_tool_call (env : SpotifyEnv) (st : SpotifyState)
    (toolName : String) (arguments : Args) : ActionResult × SpotifyState :=
  if toolName == "control_spotify" then
    match dictGet? arguments "action" with
    | some action =>
        if action == "play" || action == "pause" || action == "skip" || action == "previous" then
          (SpotifyService.control_playback env st action, st)
        else if action == "search" then
          let query := dictGetD arguments "query" ""
          let searchType := dictGetD arguments "type" "track"
          SpotifyService.search_and_play env st query searchType
        else if action == "current" then
          (SpotifyService.get_current_track env st, st)
        else
          ({ status := "error", message := some ("Unknown tool: " ++ toolName) }, st)
    | none => ({ status := "error", message := some ("Unknown tool: " ++ toolName) }, st)
  else if toolName == "manage_calendar" then
    ({ status := "info", message := some "Calendar integration coming soon!" }, st)
  else if toolName == "general_query" then
    ({ status := "success", message := some (dictGetD arguments "response" "") }, st)
  else
    ({ status := "error", message := some ("Unknown tool: " ++ toolName) }, st)

/-- The response model of the single-shot endpoint (pydantic `CommandResponse`;
the extra `raw_response` key of the result dictionary is ignored by the
constructor). -/
structure CommandResponse where
  type : String
  tool : Option String := none
  arguments : Option Args := none
  content : Option String := none
  error : Option String := none
  executionResult : Option ActionResult := none
deriving DecidableEq

/-- `CommandResponse(**result)`. -/
def CommandResponse.ofResult (r : CommandResult) : CommandResponse :=
  { type := r.type, tool := r.tool, arguments := r.arguments,
    content := r.content, error := r.error, executionResult := r.executionResult }

/-- The `POST /process` handler `process_command(request)`: resolve the text,
then execute the tool call when `result["type"] == "tool_call"` and
`result.get("tool")` is truthy, and return the pydantic response. -/
def process_command
    (oracle : List ChatMessage → Except String GroqMessage)
    (parseJson : String → Except String Args)
    (env : SpotifyEnv) (st : SpotifyState)
    (text : String) (context : Option (List ChatMessage)) :
    CommandResponse × SpotifyState :=
  let result := LLMService.process_command oracle parseJson text context
  if result.type == "tool_call" && pyTruthyStr result.tool then
    let er := execute_tool_call env st (result.tool.getD "")
      (result.arguments.getD [])
    (CommandResponse.ofResult { result with executionResult := some er.1 }, er.2)
  else
    (CommandResponse.ofResult result, st)

/-- Body of the `/ws` receive loop for one received text message: the resolver
is called with the message text only (no context argument on this transport),
the tool call is executed under the same condition as the single-shot path,
and the raw result dictionary is what gets sent back. -/
def ws_handle
    (oracle : List ChatMessage → Except String GroqMessage)
    (parseJson : String → Except String Args)
    (env : SpotifyEnv) (st : SpotifyState) (data : String) :
    CommandResult × SpotifyState :=
  let result := LLMService.process_command oracle parseJson data none
  if result.type == "tool_call" && pyTruthyStr result.tool then
    let er := execute_tool_call env st (result.tool.getD "")
      (result.arguments.getD [])
    ({ result with executionResult := some er.1 }, er.2)
  else
    (result, st)

/-- The `/ws` endpoint's receive loop over a finite sequence of received
messages: responses are sent in receive order, and the Spotify singleton's
state persists from one message to the next. -/
def websocket_endpoint
    (oracle : List ChatMessage → Except String GroqMessage)
    (parseJson : String → Except String Args)
    (env : SpotifyEnv) : SpotifyState → List String → List CommandResult
  | _, [] => []
  | st, d :: ds =>
      (ws_handle oracle parseJson env st d).1 ::
        websocket_endpoint oracle parseJson env (ws_handle oracle parseJson env st d).2 ds

/-- A fully inert external API used where a claim's scenario never reaches the
network: every call fails with a generic transport error. -/
def envTrivial : SpotifyEnv :=
  { devices := .error (.other "network unreachable"),
    search := fun _ _ => .error (.other "network unreachable"),
    artistTopTracks := fun _ => .error (.other "network unreachable"),
    startPlaybackUris := fun _ _ => .error (.other "network unreachable"),
    startPlaybackContext := fun _ _ => .error (.other "network unreachable"),
    startPlaybackResume := fun _ => .error (.other "network unreachable"),
    pausePlayback := fun _ => .error (.other "network unreachable"),
    nextTrack := fun _ => .error (.other "network unreachable"),
    previousTrack := fun _ => .error (.other "network unreachable"),
    currentPlayback := .error (.other "network unreachable") }

/-- An initialized service state with no cached device. -/
def stInit : SpotifyState := { sp := true, deviceId := none }

/-- A service state whose client handle is unset (`self.sp is None`). -/
def stOff : SpotifyState := { sp := false, deviceId := none }

/-- An external API with one inactive device, one matching track for every
search, and a playback command that requires an explicit device id: resuming
with `device_id=None` raises 404, resuming on a named device succeeds. -/
def envDevice : SpotifyEnv :=
  { devices := .ok [{ id := "d1", isActive := false, name := "Desk" }],
    search := fun _ _ =>
      .ok { tracks := [{ name := "Imagine", artistNames := ["John Lennon"], uri := "u1" }],
            artists := [], playlists := [], albums := [] },
    artistTopTracks := fun _ => .ok [],
    startPlaybackUris := fun _ _ => .ok (),
    startPlaybackContext := fun _ _ => .ok (),
    startPlaybackResume := fun d =>
      match d with
      | some _ => .ok ()
      | none => .error (.api 404 "no active device"),
    pausePlayback := fun _ => .ok (),
    nextTrack := fun _ => .ok (),
    previousTrack := fun _ => .ok (),
    currentPlayback := .ok none }

/-- An external API whose searches return no items at all. -/
def envNoMatch : SpotifyEnv :=
  { envDevice with
    search := fun _ _ => .ok { tracks := [], artists := [], playlists := [], albums := [] } }

/-- A deterministic model transport for the persistent-channel scenarios,
keyed on the last (user) message: "play imagine" resolves to a Spotify search,
"resume" to a Spotify play command, and anything else to a direct answer. -/
def oracleWs : List ChatMessage → Except String GroqMessage :=
  fun messages =>
    match messages.getLast? with
    | some m =>
        if m.content == "play imagine" then
          .ok { toolCalls := [{ name := "control_spotify", argumentsStr := "A1" }], content := none }
        else if m.content == "resume" then
          .ok { toolCalls := [{ name := "control_spotify", argumentsStr := "A2" }], content := none }
        else .ok { toolCalls := [], content := some "hi" }
    | none => .error "empty message list"

/-- The `json.loads` behaviour matching `oracleWs`'s argument strings. -/
def parseWs : String → Except String Args :=
  fun s =>
    if s == "A1" then .ok [("action", "search"), ("query", "Imagine")]
    else if s == "A2" then .ok [("action", "play")]
    else .error "Expecting value: line 1 column 1 (char 0)"

/-- A model transport that always proposes a tool invocation whose function
name is the empty string (with an empty JSON-object argument string). -/
def oracleEmptyTool : List ChatMessage → Except String GroqMessage :=
  fun _ => .ok { toolCalls := [{ name := "", argumentsStr := "A0" }], content := none }

/-- A `json.loads` behaviour that parses the empty JSON object. -/
def parseEmptyObj : String → Except String Args :=
  fun _ => .ok []

/-- A model transport that fails with a transport error on every call. -/
def oracleDown : List ChatMessage → Except String GroqMessage :=
  fun _ => .error "Connection error"

/-- Claim C1 (counterexample): dispatching `control_spotify` with the
unrecognized action value `"dance"` does produce an explicit `ActionResult`
with status `"error"` — the inner action chain falls through to the
function-level unknown-tool return — contradicting the claim that no explicit
error result is produced for that case. -/
theorem control_spotify_unknown_action_counterexample :
    execute_tool_call envTrivial stInit "control_spotify" [("action", "dance")] =
      ({ status := "error", message := some "Unknown tool: control_spotify" }, stInit) := by
  rfl

/-- Claim C1 (amended): for every dispatch call with tool `control_spotify`
and an `arguments.action` value outside play/pause/skip/previous/search/current
(or no action at all), the action chain falls through and the dispatcher
returns the explicit error result with the misleading message
`Unknown tool: control_spotify`. -/
theorem control_spotify_unknown_action_unknown_tool_error
    (env : SpotifyEnv) (st : SpotifyState) (arguments : Args)
    (h : ∀ a, dictGet? arguments "action" = some a →
      a ∉ (["play", "pause", "skip", "previous", "search", "current"] : List String)) :
    execute_tool_call env st "control_spotify" arguments =
      ({ status := "error", message := some "Unknown tool: control_spotify" }, st) := by
  unfold execute_tool_call
  cases hA : dictGet? arguments "action" with
  | none => simp
  | some a =>
      have ha := h a hA
      simp only [List.mem_cons, List.mem_singleton, not_or] at ha
      obtain ⟨h1, h2, h3, h4, h5, h6, -⟩ := ha
      have b1 : (a == "play") = false := beq_eq_false_iff_ne.mpr h1
      have b2 : (a == "pause") = false := beq_eq_false_iff_ne.mpr h2
      have b3 : (a == "skip") = false := beq_eq_false_iff_ne.mpr h3
      have b4 : (a == "previous") = false := beq_eq_false_iff_ne.mpr h4
      have b5 : (a == "search") = false := beq_eq_false_iff_ne.mpr h5
      have b6 : (a == "current") = false := beq_eq_false_iff_ne.mpr h6
      simp [b1, b2, b3, b4, b5, b6]

/-- Witness for the amended claim C1, at the concrete action value `"dance"`. -/
theorem control_spotify_unknown_action_witness :
    (∀ a, dictGet? [("action", "dance")] "action" = some a →
      a ∉ (["play", "pause", "skip", "previous", "search", "current"] : List String)) ∧
    execute_tool_call envTrivial stInit "control_spotify" [("action", "dance")] =
      ({ status := "error", message := some "Unknown tool: control_spotify" }, stInit) := by
  have h : ∀ a, dictGet? [("action", "dance")] "action" = some a →
      a ∉ (["play", "pause", "skip", "previous", "search", "current"] : List String) := by
    intro a ha
    have hv : dictGet? [("action", "dance")] "action" = some "dance" := rfl
    rw [hv] at ha
    cases ha
    decide
  exact ⟨h, control_spotify_unknown_action_unknown_tool_error envTrivial stInit _ h⟩

/-- Claim C2 (counterexample): when the model proposes a tool invocation whose
function name is the empty string, the single-shot endpoint's response has
`type = "tool_call"` and a non-null `tool` (`some ""`), yet no
`execution_result` — the truthiness check `result.get("tool")` treats the
empty string like null — so "present if and only if type == tool_call and
tool is non-null" fails. -/
theorem response_execution_result_counterexample :
    (process_command oracleEmptyTool parseEmptyObj envTrivial stInit "x" none).1.type
        = "tool_call" ∧
    (process_command oracleEmptyTool parseEmptyObj envTrivial stInit "x" none).1.tool
        = some "" ∧
    (process_command oracleEmptyTool parseEmptyObj envTrivial stInit "x" none).1.executionResult
        = none := by
  exact ⟨rfl, rfl, rfl⟩

/-- Claim C2 (amended): for every request processed by the single-shot
endpoint, the response's `type` is exactly one of tool_call,
direct_response, error, and `execution_result` is present if and only if
`type = "tool_call"` and `tool` is non-null and non-empty (Python truthiness
of the tool name). -/
theorem response_type_and_execution_result_invariant
    (oracle : List ChatMessage → Except String GroqMessage)
    (parseJson : String → Except String Args)
    (env : SpotifyEnv) (st : SpotifyState)
    (text : String) (context : Option (List ChatMessage)) :
    ((process_command oracle parseJson env st text context).1.type = "tool_call" ∨
     (process_command oracle parseJson env st text context).1.type = "direct_response" ∨
     (process_command oracle parseJson env st text context).1.type = "error") ∧
    ((process_command oracle parseJson env st text context).1.executionResult.isSome = true ↔
      ((process_command oracle parseJson env st text context).1.type = "tool_call" ∧
        pyTruthyStr (process_command oracle parseJson env st text context).1.tool = true)) := by
  unfold process_command LLMService.process_command
  cases hO : oracle (buildMessages text context) with
  | error e => simp [hO, CommandResponse.ofResult, pyTruthyStr]
  | ok msg =>
      cases hT : msg.toolCalls with
      | nil => simp [hO, hT, CommandResponse.ofResult, pyTruthyStr]
      | cons tc rest =>
          cases hP : parseJson tc.argumentsStr with
          | error e => simp [hO, hT, hP, CommandResponse.ofResult, pyTruthyStr]
          | ok functionArgs =>
              by_cases hn : tc.name = ""
              · simp [hO, hT, hP, CommandResponse.ofResult, pyTruthyStr, hn]
              · have hb : (tc.name == "") = false := beq_eq_false_iff_ne.mpr hn
                simp [hO, hT, hP, CommandResponse.ofResult, pyTruthyStr, hb]

/-- Claim C3: every model-transport failure, and every JSON parse failure of
the honored (first) tool invocation's argument string, is caught by the one
`except` clause of `LLMService.process_command` and returned as a result of
type `"error"` carrying the failure's description.  The function is total (no
exception escapes) and consults the transport exactly once per call, so the
call is never retried. -/
theorem llm_failures_become_error_results
    (oracle : List ChatMessage → Except String GroqMessage)
    (parseJson : String → Except String Args)
    (userInput : String) (context : Option (List ChatMessage)) (m : String)
    (h : oracle (buildMessages userInput context) = .error m ∨
      ∃ msg tc rest, oracle (buildMessages userInput context) = .ok msg ∧
        msg.toolCalls = tc :: rest ∧ parseJson tc.argumentsStr = .error m) :
    LLMService.process_command oracle parseJson userInput context =
      { type := "error", error := some m } := by
  unfold LLMService.process_command
  rcases h with h | ⟨msg, tc, rest, hO, hT, hP⟩
  · simp [h]
  · simp [hO, hT, hP]

/-- Witness for claim C3: a transport that fails with a connection error
yields the error result carrying that description. -/
theorem llm_failures_witness :
    (oracleDown (buildMessages "hi" none) = .error "Connection error" ∨
      ∃ msg tc rest, oracleDown (buildMessages "hi" none) = .ok msg ∧
        msg.toolCalls = tc :: rest ∧ parseEmptyObj tc.argumentsStr = .error "Connection error") ∧
    LLMService.process_command oracleDown parseEmptyObj "hi" none =
      { type := "error", error := some "Connection error" } :=
  ⟨Or.inl rfl,
    llm_failures_become_error_results oracleDown parseEmptyObj "hi" none "Connection error"
      (Or.inl rfl)⟩

/-- Claim C4: dispatching `manage_calendar` returns the feature-unavailable
info result for every arguments mapping and every integration state, and the
external API is never consulted (the result is the same for every `env`). -/
theorem manage_calendar_always_stub
    (env : SpotifyEnv) (st : SpotifyState) (arguments : Args) :
    execute_tool_call env st "manage_calendar" arguments =
      ({ status := "info", message := some "Calendar integration coming soon!" }, st) := by
  rfl

/-- Claim C5: dispatching `general_query` with arguments `{response: X}`
returns exactly `{status: "success", message: X}` for every string `X`, with
the text passed through unmodified, the state unchanged, and no integration
call made (the result is the same for every `env`). -/
theorem general_query_pass_through
    (env : SpotifyEnv) (st : SpotifyState) (X : String) :
    execute_tool_call env st "general_query" [("response", X)] =
      ({ status := "success", message := some X }, st) := by
  rfl

/-- Claim C6: dispatching `control_spotify` with
`{action: "search", query: "Imagine", type: "track"}` against an initialized
integration holding a device, whose search returns zero matching tracks,
yields exactly the error result with message `No track found for 'Imagine'`
and leaves the state unchanged. -/
theorem search_no_track_found_error
    (env : SpotifyEnv) (st : SpotifyState) (r : SearchResults)
    (hsp : st.sp = true) (hdev : pyTruthyStr st.deviceId = true)
    (hsearch : env.search "Imagine" "track" = .ok r) (htracks : r.tracks = []) :
    execute_tool_call env st "control_spotify"
        [("action", "search"), ("query", "Imagine"), ("type", "track")] =
      ({ status := "error", message := some "No track found for \x27Imagine\x27" }, st) := by
  have hq : dictGetD [("action", "search"), ("query", "Imagine"), ("type", "track")] "query" ""
      = "Imagine" := rfl
  have ht : dictGetD [("action", "search"), ("query", "Imagine"), ("type", "track")] "type" "track"
      = "track" := rfl
  simp only [execute_tool_call, hq, ht]
  norm_num [SpotifyService.search_and_play, searchBranches, spotifyTypeOf, dictGetD,
    dictGet?, type_mapping, hsp, hdev, hsearch, htracks, apos]
  rw [if_neg (by decide)]
  rfl

/-- Witness for claim C6: the no-match integration `envNoMatch` with a cached
device produces exactly the quoted error message. -/
theorem search_no_track_found_witness :
    ({ sp := true, deviceId := some "d1" } : SpotifyState).sp = true ∧
    pyTruthyStr ({ sp := true, deviceId := some "d1" } : SpotifyState).deviceId = true ∧
    envNoMatch.search "Imagine" "track" =
      .ok { tracks := [], artists := [], playlists := [], albums := [] } ∧
    execute_tool_call envNoMatch { sp := true, deviceId := some "d1" } "control_spotify"
        [("action", "search"), ("query", "Imagine"), ("type", "track")] =
      ({ status := "error", message := some "No track found for \x27Imagine\x27" },
        { sp := true, deviceId := some "d1" }) :=
  ⟨rfl, rfl, rfl,
    search_no_track_found_error envNoMatch { sp := true, deviceId := some "d1" }
      { tracks := [], artists := [], playlists := [], albums := [] } rfl rfl rfl rfl⟩

/-- Claim C7: dispatching any tool name outside control_spotify,
manage_calendar, general_query returns exactly the unknown-tool error result,
for every arguments mapping and every state. -/
theorem unknown_tool_error
    (env : SpotifyEnv) (st : SpotifyState) (t : String) (arguments : Args)
    (h : t ∉ (["control_spotify", "manage_calendar", "general_query"] : List String)) :
    execute_tool_call env st t arguments =
      ({ status := "error", message := some ("Unknown tool: " ++ t) }, st) := by
  simp only [List.mem_cons, List.mem_singleton, not_or] at h
  obtain ⟨h1, h2, h3, -⟩ := h
  have b1 : (t == "control_spotify") = false := beq_eq_false_iff_ne.mpr h1
  have b2 : (t == "manage_calendar") = false := beq_eq_false_iff_ne.mpr h2
  have b3 : (t == "general_query") = false := beq_eq_false_iff_ne.mpr h3
  simp [execute_tool_call, b1, b2, b3]

/-- Witness for claim C7, at the concrete tool name `"frobnicate"`. -/
theorem unknown_tool_error_witness :
    ("frobnicate" ∉ (["control_spotify", "manage_calendar", "general_query"] : List String)) ∧
    execute_tool_call envTrivial stInit "frobnicate" [] =
      ({ status := "error", message := some "Unknown tool: frobnicate" }, stInit) :=
  ⟨by decide, unknown_tool_error envTrivial stInit "frobnicate" [] (by decide)⟩

/-- Claim C8 (counterexample): on the persistent channel the second response
can depend on the content of the first message.  With the concrete transport
`oracleWs` and integration `envDevice`, the first message "play imagine"
caches a device id through the Spotify singleton, so the following "resume"
succeeds; when the first message is the inert "hello", the same "resume"
fails with a no-active-device error.  The two second responses differ. -/
theorem ws_second_response_depends_on_first_counterexample :
    (websocket_endpoint oracleWs parseWs envDevice stInit ["play imagine", "resume"]).get? 1 ≠
      (websocket_endpoint oracleWs parseWs envDevice stInit ["hello", "resume"]).get? 1 := by
  decide

/-- Claim C8 (amended): sending two sequential text messages on one connection
produces two responses in send order, and the resolver is invoked per message
with no context argument (by definition of `ws_handle`); the second response
does not depend on the first message's content except through the shared
integration session state — whenever two first messages leave the Spotify
singleton in the same state, the second responses coincide. -/
theorem ws_two_messages_order_and_state_dependence
    (oracle : List ChatMessage → Except String GroqMessage)
    (parseJson : String → Except String Args)
    (env : SpotifyEnv) (st : SpotifyState) (m1 m1' m2 : String)
    (h : (ws_handle oracle parseJson env st m1).2 = (ws_handle oracle parseJson env st m1').2) :
    websocket_endpoint oracle parseJson env st [m1, m2] =
      [(ws_handle oracle parseJson env st m1).1,
        (ws_handle oracle parseJson env ((ws_handle oracle parseJson env st m1).2) m2).1] ∧
    (websocket_endpoint oracle parseJson env st [m1, m2]).get? 1 =
      (websocket_endpoint oracle parseJson env st [m1', m2]).get? 1 := by
  constructor
  · rfl
  · simp [websocket_endpoint, h]

/-- Witness for the amended claim C8: two inert first messages leave the same
state, and the responses to the common second message coincide. -/
theorem ws_two_messages_witness :
    ((ws_handle oracleWs parseWs envDevice stInit "hello").2 =
      (ws_handle oracleWs parseWs envDevice stInit "hey").2) ∧
    (websocket_endpoint oracleWs parseWs envDevice stInit ["hello", "resume"] =
      [(ws_handle oracleWs parseWs envDevice stInit "hello").1,
        (ws_handle oracleWs parseWs envDevice
          ((ws_handle oracleWs parseWs envDevice stInit "hello").2) "resume").1] ∧
    (websocket_endpoint oracleWs parseWs envDevice stInit ["hello", "resume"]).get? 1 =
      (websocket_endpoint oracleWs parseWs envDevice stInit ["hey", "resume"]).get? 1) :=
  ⟨by decide,
    ws_two_messages_order_and_state_dependence oracleWs parseWs envDevice stInit
      "hello" "hey" "resume" (by decide)⟩

/-- Claim C9: when the Spotify client handle is unset (`self.sp is None`),
each of `search_and_play`, `control_playback` and `get_current_track` returns
the not-initialized error result immediately, with the state unchanged and
with no network call attempted (the results are the same for every `env`). -/
theorem spotify_not_initialized_guard
    (env : SpotifyEnv) (st : SpotifyState) (q t a : String) (h : st.sp = false) :
    SpotifyService.search_and_play env st q t = (notInitResult, st) ∧
    SpotifyService.control_playback env st a = notInitResult ∧
    SpotifyService.get_current_track env st = notInitResult := by
  refine ⟨?_, ?_, ?_⟩ <;>
    simp [SpotifyService.search_and_play, SpotifyService.control_playback,
      SpotifyService.get_current_track, h]

/-- Witness for claim C9, on the uninitialized state `stOff`. -/
theorem spotify_not_initialized_witness :
    stOff.sp = false ∧
    (SpotifyService.search_and_play envTrivial stOff "Imagine" "track" = (notInitResult, stOff) ∧
      SpotifyService.control_playback envTrivial stOff "play" = notInitResult ∧
      SpotifyService.get_current_track envTrivial stOff = notInitResult) :=
  ⟨rfl, spotify_not_initialized_guard envTrivial stOff "Imagine" "track" "play" rfl⟩

/-- Claim C10: for every `search_type` outside track/artist/playlist/album,
`search_and_play` maps it to the search type `"track"` (the `type_mapping`
default) — so the search runs as a track search — but on no match the error
message names the original `search_type`:
`No <search_type> found for '<query>'`. -/
theorem search_unknown_type_defaults_to_track
    (env : SpotifyEnv) (st : SpotifyState) (query searchType : String) (r : SearchResults)
    (hty : searchType ∉ (["track", "artist", "playlist", "album"] : List String))
    (hsp : st.sp = true) (hdev : pyTruthyStr st.deviceId = true)
    (hsearch : env.search query "track" = .ok r) (htracks : r.tracks = []) :
    spotifyTypeOf searchType = "track" ∧
    SpotifyService.search_and_play env st query searchType =
      ({ status := "error",
         message := some ("No " ++ searchType ++ " found for " ++ apos ++ query ++ apos) }, st) := by
  simp only [List.mem_cons, List.mem_singleton, not_or] at hty
  obtain ⟨ht1, ht2, ht3, ht4, -⟩ := hty
  have b1 : ("track" == searchType) = false := beq_eq_false_iff_ne.mpr (Ne.symm ht1)
  have b2 : ("artist" == searchType) = false := beq_eq_false_iff_ne.mpr (Ne.symm ht2)
  have b3 : ("playlist" == searchType) = false := beq_eq_false_iff_ne.mpr (Ne.symm ht3)
  have b4 : ("album" == searchType) = false := beq_eq_false_iff_ne.mpr (Ne.symm ht4)
  have hmap : spotifyTypeOf searchType = "track" := by
    simp [spotifyTypeOf, dictGetD, dictGet?, type_mapping, b1, b2, b3, b4]
  refine ⟨hmap, ?_⟩
  simp [SpotifyService.search_and_play, searchBranches, hmap, hsp, hdev, hsearch, htracks]

/-- Witness for claim C10, at the concrete search type `"episode"`. -/
theorem search_unknown_type_witness :
    ("episode" ∉ (["track", "artist", "playlist", "album"] : List String)) ∧
    (spotifyTypeOf "episode" = "track" ∧
      SpotifyService.search_and_play envNoMatch { sp := true, deviceId := some "d1" } "q" "episode" =
        ({ status := "error",
           message := some ("No " ++ "episode" ++ " found for " ++ apos ++ "q" ++ apos) },
          { sp := true, deviceId := some "d1" })) :=
  ⟨by decide,
    search_unknown_type_defaults_to_track envNoMatch { sp := true, deviceId := some "d1" }
      "q" "episode" { tracks := [], artists := [], playlists := [], albums := [] }
      (by decide) rfl rfl rfl rfl⟩
